import Mathlib

/-
Verification development for the clicker minigame repository.

The development shallowly embeds the GameEngine state machine (GameEngine.js),
the score submission layer (Web3Service.js, UIController.js, App.js) and the
configuration constants (config.js) in Lean, and proves properties of the
embedding.

Number representation.  JavaScript numbers are IEEE-754 binary64 values.  The
only arithmetic the engine performs on them is the repeated subtraction
timeLeft -= CONFIG.GAME.TIMER_INTERVAL / 1000 and comparisons.  Every number
that can reach timeLeft is an integer multiple of 2 ^ (-55) seconds: the
initial value 10.0 is, the decrement (the binary64 value nearest to 0.1,
namely 3602879701896397 * 2 ^ (-55)) is, and binary64 subtraction of two such
values again yields such a value, because for magnitudes below 16 the binary64
ulp at the result is at most 2 ^ (-55) or the exact result already fits in 53
significant bits.  We therefore represent these numbers exactly as integers in
units of 2 ^ (-55) seconds (suffix _fx), and binary64 rounding becomes
rounding an integer to 53 significant bits (round to nearest, ties to even).
Comparisons of binary64 values coincide with comparisons of the represented
rationals, hence with integer comparisons of the fixed-point representations.
Wall-clock timestamps (Date.now()) are integer milliseconds.
-/

namespace Clicker

/-! ## Binary64 arithmetic on the fixed-point grid -/

/-- Bit length of a natural number, with explicit fuel so that the recursion
is structural and reduces in the kernel.  128 bits of fuel cover every value
occurring in this development. -/
def bitLenAux (fuel : Nat) (n : Nat) : Nat :=
  match fuel with
  | 0 => 0
  | fuel + 1 => if n = 0 then 0 else bitLenAux fuel (n / 2) + 1

/-- Bit length of a natural number: 0 for 0, otherwise one more than the
position of the highest set bit. -/
def bitLen (n : Nat) : Nat := bitLenAux 128 n

/-- Round a natural number to 53 significant bits, round to nearest with ties
to even.  This is exactly IEEE-754 binary64 rounding of an integer-valued
magnitude (in any fixed power-of-two unit), as long as no overflow occurs. -/
def roundSigNat (n : Nat) : Nat :=
  let len := bitLen n
  if len ≤ 53 then n
  else
    let k := len - 53
    let p := 2 ^ k
    let q := n / p
    let r := n % p
    let half := p / 2
    let q2 := if r < half then q else if half < r then q + 1 else if q % 2 = 0 then q else q + 1
    q2 * p

/-- Round an integer to 53 significant bits (round to nearest, ties to even);
rounding is symmetric about zero. -/
def roundSig (n : Int) : Int :=
  match n with
  | Int.ofNat m => Int.ofNat (roundSigNat m)
  | Int.negSucc m => -(Int.ofNat (roundSigNat (m + 1)))

/-- JavaScript subtraction a - b on numbers represented in units of
2 ^ (-55): exact difference followed by binary64 rounding. -/
def jsSubFx (a b : Int) : Int := roundSig (a - b)

/-! ## Configuration constants (config.js, CONFIG.GAME), in fixed-point units
of 2 ^ (-55) seconds where they denote seconds -/

/-- CONFIG.GAME.DURATION = 10.0 seconds (exactly representable). -/
def DURATION_fx : Int := 10 * 2 ^ 55

/-- CONFIG.GAME.TIMER_INTERVAL / 1000 as computed by JavaScript: the binary64
value nearest to 1/10 is 3602879701896397 * 2 ^ (-55)
(= 0.1000000000000000055511151231257827021181583404541015625). -/
def tickDecrement_fx : Int := 3602879701896397

/-- CONFIG.GAME.TIMER_INTERVAL = 100 milliseconds (the scheduling period of
the gameplay timer). -/
def TIMER_INTERVAL_MS : Int := 100

/-- CONFIG.GAME.WARNING_THRESHOLD = 6.0 seconds. -/
def WARNING_THRESHOLD_fx : Int := 6 * 2 ^ 55

/-- CONFIG.GAME.DANGER_THRESHOLD = 3.0 seconds. -/
def DANGER_THRESHOLD_fx : Int := 3 * 2 ^ 55

/-- CONFIG.GAME.COUNTDOWN_START = 3. -/
def COUNTDOWN_START : Int := 3

/-- CONFIG.GAME.MIN_SCORE = 1. -/
def MIN_SCORE : Nat := 1

/-- CONFIG.GAME.MAX_SCORE = 1000. -/
def MAX_SCORE : Nat := 1000

/-! ## Game engine data model (GameEngine.js) -/

/-- GAME_STATES from config.js. -/
inductive GameState where
  | idle
  | countdown
  | playing
  | finished
deriving DecidableEq

/-- Timer status derived from timeLeft by GameEngine.getTimerStatus. -/
inductive TimerStatus where
  | normal
  | warning
  | danger
deriving DecidableEq

/-- Kind of a scheduled repeating callback.  A countdown schedule carries the
current value of the captured closure variable count of startCountdown. -/
inductive SchedKind where
  | countdown (count : Int)
  | timer
deriving DecidableEq

/-- A live repeating schedule registered with the timer source (setInterval):
its interval id and its callback kind. -/
structure Sched where
  id : Nat
  kind : SchedKind
deriving DecidableEq

/-- The object passed to the onGameEnd subscriber by GameEngine.endGame:
score, duration (a number of seconds, fixed-point) and timestamp
(milliseconds). -/
structure RoundResult where
  score : Nat
  duration : Int
  timestamp : Int
deriving DecidableEq

/-- One emission on one of the five event channels of the engine. -/
inductive Event where
  | stateChange (s : GameState)
  | timerUpdate (timeLeft : Int) (status : TimerStatus)
  | clickCountUpdate (count : Nat)
  | countdownTick (count : Int)
  | gameEnd (result : RoundResult)
deriving DecidableEq

/-- Which of the five single-slot callback handlers are currently set
(non-null).  App.init sets all five. -/
structure Handlers where
  onStateChange : Bool
  onTimerUpdate : Bool
  onClickCountUpdate : Bool
  onCountdownTick : Bool
  onGameEnd : Bool
deriving DecidableEq

/-- The mutable fields of a GameEngine instance, together with the scheduler
state it interacts with: active is the list of live setInterval schedules and
nextId the next interval id the timer source will hand out. -/
structure Engine where
  state : GameState
  clickCount : Nat
  timeLeft : Int
  timerInterval : Option Nat
  countdownInterval : Option Nat
  gameStartTime : Option Int
  handlers : Handlers
  active : List Sched
  nextId : Nat
deriving DecidableEq

/-- All five handlers registered, as App._setupGameEngineCallbacks leaves the
engine. -/
def allHandlers : Handlers :=
  ⟨true, true, true, true, true⟩

/-- A freshly constructed engine wired to the app: GAME_STATES.IDLE, zero
clicks, timeLeft = CONFIG.GAME.DURATION, no intervals, no start time. -/
def initEngine : Engine :=
  { state := GameState.idle
    clickCount := 0
    timeLeft := DURATION_fx
    timerInterval := none
    countdownInterval := none
    gameStartTime := none
    handlers := allHandlers
    active := []
    nextId := 0 }

/-! ## Engine operations (GameEngine.js methods) -/

/-- GameEngine.getTimerStatus: danger if timeLeft is at most the danger
threshold, else warning if at most the warning threshold, else normal. -/
def getTimerStatus (e : Engine) : TimerStatus :=
  if e.timeLeft ≤ DANGER_THRESHOLD_fx then TimerStatus.danger
  else if e.timeLeft ≤ WARNING_THRESHOLD_fx then TimerStatus.warning
  else TimerStatus.normal

/-- GameEngine._emitStateChange. -/
def emitStateChange (e : Engine) : List Event :=
  if e.handlers.onStateChange then [Event.stateChange e.state] else []

/-- GameEngine._emitTimerUpdate. -/
def emitTimerUpdate (e : Engine) : List Event :=
  if e.handlers.onTimerUpdate then [Event.timerUpdate e.timeLeft (getTimerStatus e)] else []

/-- GameEngine._emitClickCountUpdate. -/
def emitClickCountUpdate (e : Engine) : List Event :=
  if e.handlers.onClickCountUpdate then [Event.clickCountUpdate e.clickCount] else []

/-- GameEngine._emitCountdownTick. -/
def emitCountdownTick (e : Engine) (count : Int) : List Event :=
  if e.handlers.onCountdownTick then [Event.countdownTick count] else []

/-- Remove the schedule with the given interval id from the live list
(clearInterval). -/
def removeSched (l : List Sched) (i : Nat) : List Sched :=
  l.filter (fun s => s.id != i)

/-- Store a new value of the captured count variable of the countdown
callback with interval id i. -/
def setCount (l : List Sched) (i : Nat) (c : Int) : List Sched :=
  l.map (fun s => if s.id = i then { s with kind := SchedKind.countdown c } else s)

/-- The statement pair clearInterval(this.timerInterval);
this.timerInterval = null (a no-op when the field is already null). -/
def clearTimerInterval (e : Engine) : Engine :=
  match e.timerInterval with
  | some i => { e with active := removeSched e.active i, timerInterval := none }
  | none => e

/-- The statement pair clearInterval(this.countdownInterval);
this.countdownInterval = null (a no-op when the field is already null). -/
def clearCountdownInterval (e : Engine) : Engine :=
  match e.countdownInterval with
  | some i => { e with active := removeSched e.active i, countdownInterval := none }
  | none => e

/-- clearInterval(this.timerInterval) alone, as in destroy, which does not
null the field. -/
def cancelTimerSched (e : Engine) : Engine :=
  match e.timerInterval with
  | some i => { e with active := removeSched e.active i }
  | none => e

/-- clearInterval(this.countdownInterval) alone, as in destroy. -/
def cancelCountdownSched (e : Engine) : Engine :=
  match e.countdownInterval with
  | some i => { e with active := removeSched e.active i }
  | none => e

/-- GameEngine.startGameplay, called with the current wall clock (Date.now(),
milliseconds).  It performs no state check: it sets PLAYING, resets the
click count and clock, records the start time, emits the three entry events
and registers a fresh timer interval without clearing anything. -/
def startGameplay (e : Engine) (now : Int) : Engine × List Event :=
  let e := { e with
    state := GameState.playing
    clickCount := 0
    timeLeft := DURATION_fx
    gameStartTime := some now }
  let evs := emitStateChange e ++ emitClickCountUpdate e ++ emitTimerUpdate e
  let e := { e with
    timerInterval := some e.nextId
    active := e.active ++ [⟨e.nextId, SchedKind.timer⟩]
    nextId := e.nextId + 1 }
  (e, evs)

/-- GameEngine.startCountdown: only from IDLE (otherwise a logged no-op);
sets COUNTDOWN, emits the state change, emits the initial countdown value,
and registers a countdown interval whose callback captures count. -/
def startCountdown (e : Engine) : Engine × List Event :=
  if e.state ≠ GameState.idle then (e, [])
  else
    let e := { e with state := GameState.countdown }
    let evs := emitStateChange e
    let count := COUNTDOWN_START
    let evs := evs ++ emitCountdownTick e count
    let e := { e with
      countdownInterval := some e.nextId
      active := e.active ++ [⟨e.nextId, SchedKind.countdown count⟩]
      nextId := e.nextId + 1 }
    (e, evs)

/-- GameEngine.registerClick: ignored unless PLAYING; otherwise increments
the click count and emits it. -/
def registerClick (e : Engine) : Engine × List Event :=
  if e.state ≠ GameState.playing then (e, [])
  else
    let e := { e with clickCount := e.clickCount + 1 }
    (e, emitClickCountUpdate e)

/-- GameEngine.endGame, called with the current wall clock: a no-op unless
PLAYING; otherwise clears the timer interval, sets FINISHED and timeLeft = 0,
emits the state change and a timer update, and emits the round result
{score: clickCount, duration: CONFIG.GAME.DURATION, timestamp: Date.now()}
to the onGameEnd subscriber if one is set. -/
def endGame (e : Engine) (now : Int) : Engine × List Event :=
  if e.state ≠ GameState.playing then (e, [])
  else
    let e := clearTimerInterval e
    let e := { e with state := GameState.finished, timeLeft := 0 }
    let evs := emitStateChange e ++ emitTimerUpdate e
    let evs := evs ++
      (if e.handlers.onGameEnd then
        [Event.gameEnd ⟨e.clickCount, DURATION_fx, now⟩]
      else [])
    (e, evs)

/-- GameEngine.reset: clears both intervals (nulling the fields), restores
IDLE / zero clicks / full duration / no start time, and emits the state
change. -/
def reset (e : Engine) : Engine × List Event :=
  let e := clearTimerInterval e
  let e := clearCountdownInterval e
  let e := { e with
    state := GameState.idle
    clickCount := 0
    timeLeft := DURATION_fx
    gameStartTime := none }
  (e, emitStateChange e)

/-- GameEngine.destroy: clears both intervals (without nulling the fields)
and nulls all five handlers. -/
def destroy (e : Engine) : Engine × List Event :=
  let e := cancelTimerSched e
  let e := cancelCountdownSched e
  let e := { e with handlers := ⟨false, false, false, false, false⟩ }
  (e, [])

/-- The body of the setInterval callback created by startCountdown, firing
for the schedule with interval id selfId whose captured count currently holds
count: decrement count (a closure mutation, recorded in the schedule list);
if still positive emit it, otherwise clear the countdown interval via the
field and start gameplay. -/
def fireCountdown (e : Engine) (selfId : Nat) (count : Int) (now : Int) :
    Engine × List Event :=
  let count := count - 1
  let e := { e with active := setCount e.active selfId count }
  if 0 < count then (e, emitCountdownTick e count)
  else
    let e := clearCountdownInterval e
    startGameplay e now

/-- The body of the setInterval callback created by startGameplay: subtract
the decrement from timeLeft (binary64 arithmetic); if the result is at most 0,
clamp to 0 and call endGame; in every case emit a timer update afterwards
(from the engine as the callback left it). -/
def fireTimer (e : Engine) (now : Int) : Engine × List Event :=
  let e := { e with timeLeft := jsSubFx e.timeLeft tickDecrement_fx }
  if e.timeLeft ≤ 0 then
    let r := endGame { e with timeLeft := 0 } now
    (r.1, r.2 ++ emitTimerUpdate r.1)
  else
    (e, emitTimerUpdate e)

/-! ## Scheduler semantics -/

/-- The engine together with the wall clock (milliseconds). -/
structure World where
  eng : Engine
  now : Int
deriving DecidableEq

/-- The initial world: a freshly constructed, app-wired engine at time 0. -/
def init0 : World := ⟨initEngine, 0⟩

/-- One externally observable step: a public method call on the engine, a
wall-clock advance, or the timer source firing the live schedule with a given
interval id (firing a cancelled id is a no-op: cancellation is effective
before any further tick). -/
inductive Op where
  | startCountdown
  | startGameplay
  | registerClick
  | endGame
  | reset
  | destroy
  | advance (dt : Int)
  | tick (id : Nat)
deriving DecidableEq

/-- Look up a live schedule by interval id. -/
def findSched (l : List Sched) (i : Nat) : Option Sched :=
  l.find? (fun s => s.id == i)

/-- Lift an engine transition (new engine, events) to a world transition at
an unchanged wall clock. -/
def engStep (w : World) (r : Engine × List Event) : World × List Event :=
  (⟨r.1, w.now⟩, r.2)

/-- Small-step semantics: execute one operation, returning the new world and
the list of events emitted during it, in emission order. -/
def stepOp (w : World) (op : Op) : World × List Event :=
  match op with
  | Op.startCountdown => engStep w (startCountdown w.eng)
  | Op.startGameplay => engStep w (startGameplay w.eng w.now)
  | Op.registerClick => engStep w (registerClick w.eng)
  | Op.endGame => engStep w (endGame w.eng w.now)
  | Op.reset => engStep w (reset w.eng)
  | Op.destroy => engStep w (destroy w.eng)
  | Op.advance dt => (⟨w.eng, w.now + dt⟩, [])
  | Op.tick i =>
    match findSched w.eng.active i with
    | none => (w, [])
    | some s =>
      match s.kind with
      | SchedKind.countdown c => engStep w (fireCountdown w.eng i c w.now)
      | SchedKind.timer => engStep w (fireTimer w.eng w.now)

/-- Run a list of operations, concatenating the emitted events. -/
def run (w : World) (ops : List Op) : World × List Event :=
  match ops with
  | [] => (w, [])
  | op :: rest =>
    ((run (stepOp w op).1 rest).1, (stepOp w op).2 ++ (run (stepOp w op).1 rest).2)

/-! ## Event trace projections -/

/-- The round results carried by the gameEnd events of a trace. -/
def gameEndEvents (l : List Event) : List RoundResult :=
  l.filterMap (fun ev =>
    match ev with
    | Event.gameEnd r => some r
    | _ => none)

/-- The values carried by the countdownTick events of a trace. -/
def countdownTickEvents (l : List Event) : List Int :=
  l.filterMap (fun ev =>
    match ev with
    | Event.countdownTick c => some c
    | _ => none)

/-- The timeLeft values carried by the timerUpdate events of a trace. -/
def timerUpdateEvents (l : List Event) : List Int :=
  l.filterMap (fun ev =>
    match ev with
    | Event.timerUpdate t _ => some t
    | _ => none)

/-! ## The concrete scenario of the specification: duration 10.0 s, tick
interval 100 ms, countdown start 3, driven at the real cadence of the two
setInterval schedules (1000 ms countdown ticks, 100 ms timer ticks) -/

/-- startCountdown from the initial world followed by the three firings of
the countdown schedule (interval id 0), one second apart. -/
def fullCountdownOps : List Op :=
  Op.startCountdown :: (List.replicate 3 [Op.advance 1000, Op.tick 0]).flatten

/-- One hundred firings of the gameplay timer schedule (interval id 1),
100 ms apart. -/
def play100Ops : List Op :=
  (List.replicate 100 [Op.advance 100, Op.tick 1]).flatten

/-- The world at the entry to PLAYING of the canonical round (wall clock
3000 ms). -/
def w_play : World := (run init0 fullCountdownOps).1

/-- The world of the canonical round after 100 firings of the gameplay timer
(wall clock 13000 ms). -/
def w_100 : World := (run init0 (fullCountdownOps ++ play100Ops)).1

/-- The world of the canonical round just before the 101st firing of the
gameplay timer (wall clock 13100 ms). -/
def w_101pre : World := (stepOp w_100 (Op.advance 100)).1

/-! ## One-schedule-at-a-time invariant -/

/-- At most one schedule is live, a live schedule is owned by the matching
engine field in the matching state, and an idle engine holds no interval
handles.  This is the configuration invariant preserved by the public
interface without direct startGameplay calls. -/
def Inv (e : Engine) : Prop :=
  (e.state = GameState.idle → e.timerInterval = none ∧ e.countdownInterval = none) ∧
  (e.active = [] ∨
   (∃ i k, e.active = [⟨i, SchedKind.countdown k⟩] ∧
     e.countdownInterval = some i ∧ e.timerInterval = none ∧
     e.state = GameState.countdown) ∨
   (∃ i, e.active = [⟨i, SchedKind.timer⟩] ∧
     e.timerInterval = some i ∧ e.state = GameState.playing))

/-! ## Score submission layer (Web3Service.js, UIController.js, App.js) -/

/-- The submission-relevant state of a Web3Service instance: whether it is
in demo mode and whether a contract instance is present. -/
structure Web3State where
  isDemoMode : Bool
  hasContract : Bool
deriving DecidableEq

/-- The result object of Web3Service.submitScore. -/
structure SubmitResult where
  success : Bool
  txHash : Option String
  error : Option String
deriving DecidableEq

/-- The checks Web3Service.submitScore performs before any network
interaction: some result means the method returns it without touching the
network; none means it proceeds to the contract call. -/
def submitScorePre (svc : Web3State) (score : Nat) : Option SubmitResult :=
  if svc.isDemoMode || !svc.hasContract then
    some ⟨false, none, some "Contract not available. Running in demo mode."⟩
  else if score < MIN_SCORE || MAX_SCORE < score then
    some ⟨false, none, some "Invalid score. Must be between 1 and 1000"⟩
  else none

/-- Web3Service.submitScore: the precondition checks, then the contract
call, whose outcome (success with a transaction hash, or a caught error) is
supplied by the environment as netResult.  The Bool records whether the
network was reached. -/
def submitScore (svc : Web3State) (score : Nat) (netResult : SubmitResult) :
    SubmitResult × Bool :=
  match submitScorePre svc score with
  | some r => (r, false)
  | none => (netResult, true)

/-- PlayerStats as stored in the Local Fallback Store (localStorage key
playerStats): totalScores counts games played. -/
structure PlayerStats where
  totalScores : Nat
  bestScore : Nat
  totalClicks : Nat
deriving DecidableEq

/-- UIController.saveDemoStats: load, increment the game count, accumulate
the clicks, raise the best score if beaten, store back. -/
def saveDemoStats (stats : PlayerStats) (score : Nat) : PlayerStats :=
  { totalScores := stats.totalScores + 1
    totalClicks := stats.totalClicks + score
    bestScore := if stats.bestScore < score then score else stats.bestScore }

/-- The observable outcome of one run of App._submitScore: the resulting
contents of the Local Fallback Store, whether the network was reached,
whether player stats were reloaded from the ledger, and the storage status
message shown. -/
structure SubmitOutcome where
  stats : PlayerStats
  networkCalled : Bool
  statsReloaded : Bool
  storageStatus : String
deriving DecidableEq

/-- App._submitScore: demo mode saves locally and returns; a zero score is
reported without submission; otherwise the score is submitted through
Web3Service.submitScore, stats are reloaded from the ledger only on success,
and the local store is never touched. -/
def appSubmitScore (svc : Web3State) (score : Nat) (stats : PlayerStats)
    (netResult : SubmitResult) : SubmitOutcome :=
  if svc.isDemoMode || !svc.hasContract then
    { stats := saveDemoStats stats score
      networkCalled := false
      statsReloaded := false
      storageStatus := "Score saved locally (demo mode)" }
  else if score = 0 then
    { stats := stats
      networkCalled := false
      statsReloaded := false
      storageStatus := "No score to submit (0 clicks)" }
  else
    let (result, called) := submitScore svc score netResult
    if result.success then
      { stats := stats
        networkCalled := called
        statsReloaded := true
        storageStatus := "Score stored on-chain" }
    else
      { stats := stats
        networkCalled := called
        statsReloaded := false
        storageStatus := "Failed to store score" }

/-- A reachable-shape engine in PLAYING with 677 fixed-point units of time
left (the value the canonical round reaches after 100 timer ticks), used as a
concrete input by witnesses. -/
def e_lowTime : Engine :=
  { initEngine with
    state := GameState.playing
    timeLeft := 677
    timerInterval := some 0
    gameStartTime := some 0
    active := [⟨0, SchedKind.timer⟩]
    nextId := 1 }

/-- The world obtained by performing reset after a given operation
sequence. -/
def afterReset (ops : List Op) : World :=
  (stepOp (run init0 ops).1 Op.reset).1

/-- The engine after n consecutive registerClick calls. -/
def clicksN (n : Nat) (e : Engine) : Engine :=
  Nat.iterate (fun e => (registerClick e).1) n e

end Clicker

namespace Clicker

/-! ## Projection helper lemmas -/

theorem gameEndEvents_append (a b : List Event) :
    gameEndEvents (a ++ b) = gameEndEvents a ++ gameEndEvents b :=
  List.filterMap_append a b _

theorem timerUpdateEvents_append (a b : List Event) :
    timerUpdateEvents (a ++ b) = timerUpdateEvents a ++ timerUpdateEvents b :=
  List.filterMap_append a b _

theorem gameEndEvents_emitStateChange (e : Engine) :
    gameEndEvents (emitStateChange e) = [] := by
  unfold emitStateChange
  split <;> simp [gameEndEvents]

theorem gameEndEvents_emitTimerUpdate (e : Engine) :
    gameEndEvents (emitTimerUpdate e) = [] := by
  unfold emitTimerUpdate
  split <;> simp [gameEndEvents]

theorem gameEndEvents_emitClickCountUpdate (e : Engine) :
    gameEndEvents (emitClickCountUpdate e) = [] := by
  unfold emitClickCountUpdate
  split <;> simp [gameEndEvents]

theorem timerUpdateEvents_emitStateChange (e : Engine) :
    timerUpdateEvents (emitStateChange e) = [] := by
  unfold emitStateChange
  split <;> simp [timerUpdateEvents]

theorem timerUpdateEvents_emitClickCountUpdate (e : Engine) :
    timerUpdateEvents (emitClickCountUpdate e) = [] := by
  unfold emitClickCountUpdate
  split <;> simp [timerUpdateEvents]

theorem timerUpdateEvents_emitTimerUpdate (e : Engine)
    (h : e.handlers.onTimerUpdate = true) :
    timerUpdateEvents (emitTimerUpdate e) = [e.timeLeft] := by
  simp [emitTimerUpdate, h, timerUpdateEvents]

/-! ## Helper lemmas about endGame -/

theorem endGame_not_playing (e : Engine) (now : Int)
    (h : e.state ≠ GameState.playing) :
    endGame e now = (e, []) := by
  simp [endGame, h]

theorem endGame_playing_parts (e : Engine) (now : Int)
    (h : e.state = GameState.playing) :
    (endGame e now).1.state = GameState.finished ∧
    (endGame e now).1.clickCount = e.clickCount ∧
    (endGame e now).1.timeLeft = 0 ∧
    (endGame e now).1.timerInterval = none ∧
    (endGame e now).1.handlers = e.handlers ∧
    gameEndEvents (endGame e now).2 =
      (if e.handlers.onGameEnd then
        [RoundResult.mk e.clickCount DURATION_fx now] else []) := by
  unfold endGame
  rw [if_neg (by simp [h])]
  cases hti : e.timerInterval with
  | none =>
    simp [clearTimerInterval, hti, gameEndEvents_append,
      gameEndEvents_emitStateChange, gameEndEvents_emitTimerUpdate]
    split <;> simp [gameEndEvents]
  | some i =>
    simp [clearTimerInterval, hti, gameEndEvents_append,
      gameEndEvents_emitStateChange, gameEndEvents_emitTimerUpdate]
    split <;> simp [gameEndEvents]

theorem timerUpdateEvents_gameEnd_ite (c : Prop) [Decidable c] (r : RoundResult) :
    timerUpdateEvents (if c then [Event.gameEnd r] else []) = [] := by
  split <;> simp [timerUpdateEvents]

theorem timerUpdateEvents_endGame_playing (e : Engine) (now : Int)
    (h : e.state = GameState.playing) (hu : e.handlers.onTimerUpdate = true) :
    timerUpdateEvents (endGame e now).2 = [0] := by
  unfold endGame
  rw [if_neg (by simp [h])]
  cases hti : e.timerInterval with
  | none =>
    simp only [clearTimerInterval, hti]
    rw [timerUpdateEvents_append, timerUpdateEvents_append]
    rw [timerUpdateEvents_emitStateChange]
    rw [timerUpdateEvents_emitTimerUpdate _ (by simpa using hu)]
    rw [timerUpdateEvents_gameEnd_ite]
    simp
  | some i =>
    simp only [clearTimerInterval, hti]
    rw [timerUpdateEvents_append, timerUpdateEvents_append]
    rw [timerUpdateEvents_emitStateChange]
    rw [timerUpdateEvents_emitTimerUpdate _ (by simpa using hu)]
    rw [timerUpdateEvents_gameEnd_ite]
    simp

/-! ## Claim theorems: submission layer -/

/-- Claim C8: with a contract configured and demo mode off, a score outside
[MIN_SCORE, MAX_SCORE] makes Web3Service.submitScore return a failure result
carrying the validation error message without reaching the network, and
App._submitScore leaves the Local Fallback Store stats unchanged and reloads
nothing. -/
theorem C8_thm (svc : Web3State) (score : Nat) (stats : PlayerStats)
    (netResult : SubmitResult)
    (hd : svc.isDemoMode = false) (hc : svc.hasContract = true)
    (hr : score < MIN_SCORE ∨ MAX_SCORE < score) :
    submitScore svc score netResult =
      (⟨false, none, some "Invalid score. Must be between 1 and 1000"⟩, false) ∧
    (appSubmitScore svc score stats netResult).stats = stats ∧
    (appSubmitScore svc score stats netResult).networkCalled = false ∧
    (appSubmitScore svc score stats netResult).statsReloaded = false := by
  have hpre : submitScorePre svc score =
      some ⟨false, none, some "Invalid score. Must be between 1 and 1000"⟩ := by
    have : (score < MIN_SCORE || MAX_SCORE < score) = true := by
      rcases hr with hr | hr <;> simp [hr]
    simp [submitScorePre, hd, hc, this]
  refine ⟨by simp [submitScore, hpre], ?_⟩
  rcases hr with hr | hr
  · have h0 : score = 0 := by
      unfold MIN_SCORE at hr
      omega
    simp [appSubmitScore, hd, hc, h0]
  · have h0 : score ≠ 0 := by
      unfold MAX_SCORE at hr
      omega
    simp [appSubmitScore, hd, hc, h0, submitScore, hpre]

/-- Witness for C8 at the concrete score 1001. -/
theorem C8_witness :
    submitScore ⟨false, true⟩ 1001 ⟨true, some "0xabc", none⟩ =
      (⟨false, none, some "Invalid score. Must be between 1 and 1000"⟩, false) ∧
    (appSubmitScore ⟨false, true⟩ 1001 ⟨2, 300, 700⟩ ⟨true, some "0xabc", none⟩).stats
      = ⟨2, 300, 700⟩ ∧
    (appSubmitScore ⟨false, true⟩ 1001 ⟨2, 300, 700⟩
      ⟨true, some "0xabc", none⟩).networkCalled = false ∧
    (appSubmitScore ⟨false, true⟩ 1001 ⟨2, 300, 700⟩
      ⟨true, some "0xabc", none⟩).statsReloaded = false :=
  C8_thm ⟨false, true⟩ 1001 ⟨2, 300, 700⟩ ⟨true, some "0xabc", none⟩ rfl rfl
    (Or.inr (by decide))

/-- Claim C9: in demo mode App._submitScore makes no network call and updates
the Local Fallback Store so that games played grows by one, total clicks by
the score, and the best score becomes the maximum of the old best and the
score. -/
theorem C9_thm (svc : Web3State) (score : Nat) (stats : PlayerStats)
    (netResult : SubmitResult)
    (h : svc.isDemoMode = true ∨ svc.hasContract = false) :
    (appSubmitScore svc score stats netResult).stats.totalScores
      = stats.totalScores + 1 ∧
    (appSubmitScore svc score stats netResult).stats.totalClicks
      = stats.totalClicks + score ∧
    (appSubmitScore svc score stats netResult).stats.bestScore
      = max stats.bestScore score ∧
    (appSubmitScore svc score stats netResult).networkCalled = false := by
  have hb : (svc.isDemoMode || !svc.hasContract) = true := by
    rcases h with h | h <;> simp [h]
  unfold appSubmitScore
  rw [if_pos hb]
  refine ⟨rfl, rfl, ?_, rfl⟩
  simp only [saveDemoStats]
  split <;> omega

/-- Witness for C9 at score 500 against stored stats (2 games, best 300,
700 clicks). -/
theorem C9_witness :
    (appSubmitScore ⟨true, false⟩ 500 ⟨2, 300, 700⟩
      ⟨false, none, none⟩).stats.totalScores = 2 + 1 ∧
    (appSubmitScore ⟨true, false⟩ 500 ⟨2, 300, 700⟩
      ⟨false, none, none⟩).stats.totalClicks = 700 + 500 ∧
    (appSubmitScore ⟨true, false⟩ 500 ⟨2, 300, 700⟩
      ⟨false, none, none⟩).stats.bestScore = max 300 500 ∧
    (appSubmitScore ⟨true, false⟩ 500 ⟨2, 300, 700⟩
      ⟨false, none, none⟩).networkCalled = false :=
  C9_thm ⟨true, false⟩ 500 ⟨2, 300, 700⟩ ⟨false, none, none⟩ (Or.inl rfl)

/-! ## Claim theorems: engine -/

/-- Claim C10: startGameplay checks no precondition: from any engine state it
sets PLAYING, zeroes the click counter, restores the full duration, records
the wall clock as the new start time, and registers a fresh decrement
schedule while leaving every previously active schedule in place and the
countdown interval field untouched. -/
theorem C10_thm (e : Engine) (now : Int) :
    (startGameplay e now).1.state = GameState.playing ∧
    (startGameplay e now).1.clickCount = 0 ∧
    (startGameplay e now).1.timeLeft = DURATION_fx ∧
    (startGameplay e now).1.gameStartTime = some now ∧
    (startGameplay e now).1.active = e.active ++ [⟨e.nextId, SchedKind.timer⟩] ∧
    (startGameplay e now).1.timerInterval = some e.nextId ∧
    (startGameplay e now).1.countdownInterval = e.countdownInterval := by
  simp [startGameplay]

/-- Claim C1 (amended): from PLAYING, endGame emits the round-end event
exactly once, with score equal to the click counter at the moment of
finishing and timestamp the current wall clock; its duration field is the
configured CONFIG.GAME.DURATION (not the wall-clock elapsed time); and a
second endGame call emits nothing further. -/
theorem C1_thm (e : Engine) (now now2 : Int) (h : e.state = GameState.playing)
    (hh : e.handlers.onGameEnd = true) :
    gameEndEvents (endGame e now).2 = [⟨e.clickCount, DURATION_fx, now⟩] ∧
    endGame (endGame e now).1 now2 = ((endGame e now).1, []) := by
  obtain ⟨hs, _, _, _, _, hev⟩ := endGame_playing_parts e now h
  refine ⟨?_, ?_⟩
  · rw [hev, if_pos hh]
  · refine endGame_not_playing _ _ ?_
    rw [hs]
    intro hx
    cases hx

/-- Witness for C1 at the concrete engine e_lowTime finishing at wall clock
13000 ms. -/
theorem C1_witness :
    gameEndEvents (endGame e_lowTime 13000).2 =
      [⟨e_lowTime.clickCount, DURATION_fx, 13000⟩] ∧
    endGame (endGame e_lowTime 13000).1 13500 = ((endGame e_lowTime 13000).1, []) :=
  C1_thm e_lowTime 13000 13500 (by decide) (by decide)

set_option maxRecDepth 400000 in
/-- Counterexample to claim C1 as stated: in the canonical round the Playing
entry is recorded at wall clock 3000 ms and the finishing tick occurs at
13100 ms, so the wall-clock elapsed time is 10100 ms = 10.1 seconds, while
the emitted duration field is the constant 10 seconds; comparing in common
units (seconds times 2 ^ 55, milliseconds times 1): a duration of d_fx
fixed-point seconds equals an elapsed time of m milliseconds exactly when
d_fx * 1000 = m * 2 ^ 55, which fails here. -/
theorem C1_counterexample :
    gameEndEvents
      (run init0 (fullCountdownOps ++ play100Ops ++ [Op.advance 100, Op.tick 1])).2 =
      [⟨0, DURATION_fx, 13100⟩] ∧
    w_play.eng.gameStartTime = some 3000 ∧
    DURATION_fx * 1000 ≠ (13100 - 3000) * 2 ^ 55 :=
  ⟨by decide, by decide, by decide⟩

/-- Claim C2 (amended): calling endGame twice in a row emits events only on
the first call; a registerClick ignored outside PLAYING emits nothing; but
the Playing-to-Finished transition driven by the timer callback emits the
final timer-update with value 0 twice - once inside endGame and once more in
the callback after endGame returns. -/
theorem C2_thm :
    (∀ (e : Engine) (now now2 : Int),
      endGame (endGame e now).1 now2 = ((endGame e now).1, [])) ∧
    (∀ (e : Engine), e.state ≠ GameState.playing → registerClick e = (e, [])) ∧
    (∀ (e : Engine) (now : Int), e.state = GameState.playing →
      e.handlers.onTimerUpdate = true →
      jsSubFx e.timeLeft tickDecrement_fx ≤ 0 →
      timerUpdateEvents (fireTimer e now).2 = [0, 0]) := by
  refine ⟨?_, ?_, ?_⟩
  · intro e now now2
    by_cases h : e.state = GameState.playing
    · obtain ⟨hs, _, _, _, _, _⟩ := endGame_playing_parts e now h
      refine endGame_not_playing _ _ ?_
      rw [hs]
      intro hx
      cases hx
    · rw [endGame_not_playing e now h]
      exact endGame_not_playing e now2 h
  · intro e h
    simp [registerClick, h]
  · intro e now h hu hle
    simp only [fireTimer]
    split
    case isTrue h2 =>
      obtain ⟨_, _, ht0, _, hhd, _⟩ :=
        endGame_playing_parts { e with timeLeft := (0 : Int) } now h
      rw [timerUpdateEvents_append]
      rw [timerUpdateEvents_endGame_playing { e with timeLeft := (0 : Int) } now h hu]
      rw [timerUpdateEvents_emitTimerUpdate _ (by rw [hhd]; exact hu)]
      rw [ht0]
      rfl
    case isFalse h2 =>
      exact absurd hle (by simpa using h2)

/-- Witness for C2: a double endGame on e_lowTime, an ignored click on the
idle initial engine, and the finishing timer tick on e_lowTime. -/
theorem C2_witness :
    endGame (endGame e_lowTime 5).1 6 = ((endGame e_lowTime 5).1, []) ∧
    registerClick initEngine = (initEngine, []) ∧
    timerUpdateEvents (fireTimer e_lowTime 13100).2 = [0, 0] :=
  ⟨C2_thm.1 e_lowTime 5 6, C2_thm.2.1 initEngine (by decide),
    C2_thm.2.2 e_lowTime 13100 (by decide) (by decide) (by decide)⟩

set_option maxRecDepth 400000 in
/-- Counterexample to claim C2 as stated: the Playing-to-Finished transition
of the canonical round (the 101st firing of the gameplay timer) emits the
final timer-update with value 0 twice, not once - once inside endGame and
once more in the timer callback after endGame returns. -/
theorem C2_counterexample :
    (stepOp w_101pre (Op.tick 1)).2 =
      [Event.stateChange GameState.finished,
       Event.timerUpdate 0 TimerStatus.danger,
       Event.gameEnd ⟨0, DURATION_fx, 13100⟩,
       Event.timerUpdate 0 TimerStatus.danger] ∧
    (timerUpdateEvents (stepOp w_101pre (Op.tick 1)).2).length = 2 :=
  ⟨by decide, by decide⟩

/-- Helper: n clicks while PLAYING keep the engine PLAYING, add n to the
click counter and leave the handlers alone. -/
theorem clicksN_playing (n : Nat) :
    ∀ (e : Engine), e.state = GameState.playing →
      (clicksN n e).state = GameState.playing ∧
      (clicksN n e).clickCount = e.clickCount + n ∧
      (clicksN n e).handlers = e.handlers := by
  induction n with
  | zero =>
    intro e h
    exact ⟨h, rfl, rfl⟩
  | succ n ih =>
    intro e h
    have hone : (registerClick e).1 = { e with clickCount := e.clickCount + 1 } := by
      simp [registerClick, h]
    have hstep : clicksN (n + 1) e = clicksN n (registerClick e).1 := by
      simp [clicksN, Function.iterate_succ_apply]
    obtain ⟨h1, h2, h3⟩ := ih (registerClick e).1 (by rw [hone]; exact h)
    refine ⟨by rw [hstep]; exact h1, ?_, ?_⟩
    · rw [hstep, h2, hone]
      simp
      omega
    · rw [hstep, h3, hone]

/-- Claim C6: registerClick outside PLAYING changes nothing and emits
nothing; and for every n, entering PLAYING (which zeroes the counter) and
clicking exactly n times yields click count n, preserved into FINISHED by
endGame, whose round result carries score n. -/
theorem C6_thm :
    (∀ (e : Engine), e.state ≠ GameState.playing → registerClick e = (e, [])) ∧
    (∀ (e : Engine) (now now2 : Int) (n : Nat),
      (clicksN n (startGameplay e now).1).clickCount = n ∧
      (clicksN n (startGameplay e now).1).state = GameState.playing ∧
      (endGame (clicksN n (startGameplay e now).1) now2).1.state
        = GameState.finished ∧
      (endGame (clicksN n (startGameplay e now).1) now2).1.clickCount = n ∧
      (e.handlers.onGameEnd = true →
        gameEndEvents (endGame (clicksN n (startGameplay e now).1) now2).2 =
          [⟨n, DURATION_fx, now2⟩])) := by
  refine ⟨?_, ?_⟩
  · intro e h
    simp [registerClick, h]
  · intro e now now2 n
    have hp : (startGameplay e now).1.state = GameState.playing ∧
        (startGameplay e now).1.clickCount = 0 ∧
        (startGameplay e now).1.handlers = e.handlers := by
      simp [startGameplay]
    obtain ⟨hps, hpc, hph⟩ := hp
    obtain ⟨h1, h2, h3⟩ := clicksN_playing n _ hps
    rw [hpc] at h2
    simp only [Nat.zero_add] at h2
    obtain ⟨g1, g2, _, _, _, g6⟩ :=
      endGame_playing_parts (clicksN n (startGameplay e now).1) now2 h1
    refine ⟨h2, h1, g1, by rw [g2, h2], ?_⟩
    intro hh
    rw [g6, h3, hph, if_pos hh, h2]

/-- Witness for C6: a click ignored in the idle initial engine, and five
clicks in a round started from the initial engine. -/
theorem C6_witness :
    registerClick initEngine = (initEngine, []) ∧
    (clicksN 5 (startGameplay initEngine 0).1).clickCount = 5 ∧
    (clicksN 5 (startGameplay initEngine 0).1).state = GameState.playing ∧
    (endGame (clicksN 5 (startGameplay initEngine 0).1) 9).1.state
      = GameState.finished ∧
    (endGame (clicksN 5 (startGameplay initEngine 0).1) 9).1.clickCount = 5 ∧
    gameEndEvents (endGame (clicksN 5 (startGameplay initEngine 0).1) 9).2 =
      [⟨5, DURATION_fx, 9⟩] := by
  obtain ⟨a1, a2, a3, a4, a5⟩ := C6_thm.2 initEngine 0 9 5
  exact ⟨C6_thm.1 initEngine (by decide), a1, a2, a3, a4, a5 (by decide)⟩

set_option maxRecDepth 400000 in
/-- Claim C4, evaluated on the code at the concrete scenario (duration
10.0 s, tick 100 ms, countdown start 3): the countdown emits exactly the
ticks 3, 2, 1 (0 is never emitted) and transitions to PLAYING with click
count 0 and full duration - that part of the claim holds.  But after 100
firings of the decrement schedule the engine is still PLAYING with
timeLeft = 677 * 2 ^ (-55) seconds (about 1.88e-14, the positive residue of
one hundred binary64 subtractions of the double nearest 0.1 from 10.0), and
only the 101st firing reaches FINISHED: the transition does not occur after
100 ticks as claimed. -/
theorem C4_thm :
    countdownTickEvents (run init0 fullCountdownOps).2 = [3, 2, 1] ∧
    w_play.eng.state = GameState.playing ∧
    w_play.eng.clickCount = 0 ∧
    w_play.eng.timeLeft = DURATION_fx ∧
    w_100.eng.state = GameState.playing ∧
    w_100.eng.timeLeft = 677 ∧
    (stepOp w_101pre (Op.tick 1)).1.eng.state = GameState.finished ∧
    (stepOp w_101pre (Op.tick 1)).1.eng.timeLeft = 0 :=
  ⟨by decide, by decide, by decide, by decide, by decide, by decide,
   by decide, by decide⟩

/-! ## Schedule bookkeeping lemmas -/

theorem removeSched_nil (i : Nat) : removeSched [] i = [] := rfl

theorem removeSched_self (i : Nat) (k : SchedKind) :
    removeSched [⟨i, k⟩] i = [] := by
  simp [removeSched]

theorem setCount_self (i : Nat) (k : SchedKind) (c : Int) :
    setCount [⟨i, k⟩] i c = [⟨i, SchedKind.countdown c⟩] := by
  simp [setCount]

theorem findSched_nil (i : Nat) : findSched [] i = none := rfl

theorem findSched_self (i : Nat) (k : SchedKind) :
    findSched [⟨i, k⟩] i = some ⟨i, k⟩ := by
  simp [findSched]

theorem findSched_other (i j : Nat) (k : SchedKind) (h : i ≠ j) :
    findSched [⟨i, k⟩] j = none := by
  simp [findSched, List.find?, beq_eq_false_iff_ne.mpr h]

theorem startGameplay_parts (e : Engine) (now : Int) :
    (startGameplay e now).1.state = GameState.playing ∧
    (startGameplay e now).1.active = e.active ++ [⟨e.nextId, SchedKind.timer⟩] ∧
    (startGameplay e now).1.timerInterval = some e.nextId ∧
    (startGameplay e now).1.countdownInterval = e.countdownInterval ∧
    (startGameplay e now).1.timeLeft = DURATION_fx ∧
    (startGameplay e now).1.clickCount = 0 := by
  simp [startGameplay]

theorem endGame_playing_sched (e : Engine) (now : Int)
    (h : e.state = GameState.playing) :
    (endGame e now).1.active = (clearTimerInterval e).active ∧
    (endGame e now).1.countdownInterval = e.countdownInterval := by
  unfold endGame
  rw [if_neg (by simp [h])]
  cases hti : e.timerInterval <;> simp [clearTimerInterval, hti]

/-! ## Preservation of the one-schedule invariant -/

theorem inv_init : Inv initEngine :=
  ⟨fun _ => ⟨rfl, rfl⟩, Or.inl rfl⟩

theorem inv_startCountdown (e : Engine) (h : Inv e) : Inv (startCountdown e).1 := by
  obtain ⟨hidle, hact⟩ := h
  by_cases hs : e.state = GameState.idle
  · obtain ⟨ht, hc⟩ := hidle hs
    have hempty : e.active = [] := by
      rcases hact with h1 | ⟨i, k, _, _, _, hst⟩ | ⟨i, _, _, hst⟩
      · exact h1
      · rw [hs] at hst
        exact absurd hst (by decide)
      · rw [hs] at hst
        exact absurd hst (by decide)
    simp only [startCountdown, if_neg (show ¬e.state ≠ GameState.idle by simp [hs])]
    refine ⟨fun hx => absurd hx (by simp), Or.inr (Or.inl ⟨e.nextId, COUNTDOWN_START, ?_, ?_, ?_, ?_⟩)⟩
    · simp [hempty]
    · simp
    · simpa using ht
    · rfl
  · simp only [startCountdown, if_pos (show e.state ≠ GameState.idle from hs)]
    exact ⟨hidle, hact⟩

theorem inv_registerClick (e : Engine) (h : Inv e) : Inv (registerClick e).1 := by
  obtain ⟨hidle, hact⟩ := h
  unfold registerClick
  split
  · exact ⟨hidle, hact⟩
  · exact ⟨hidle, hact⟩

theorem inv_endGame (e : Engine) (now : Int) (h : Inv e) : Inv (endGame e now).1 := by
  obtain ⟨hidle, hact⟩ := h
  by_cases hp : e.state = GameState.playing
  · obtain ⟨hs, _, _, _, _, _⟩ := endGame_playing_parts e now hp
    obtain ⟨hsa, _⟩ := endGame_playing_sched e now hp
    refine ⟨fun hx => absurd (hs.symm.trans hx) (by decide), Or.inl ?_⟩
    rw [hsa]
    rcases hact with h1 | ⟨i, k, ha, hc, ht, hst⟩ | ⟨i, ha, ht, hst⟩
    · cases hti : e.timerInterval <;>
        simp [clearTimerInterval, hti, h1, removeSched_nil]
    · rw [hp] at hst
      exact absurd hst (by decide)
    · simp [clearTimerInterval, ht, ha, removeSched_self]
  · rw [endGame_not_playing e now hp]
    exact ⟨hidle, hact⟩

theorem reset_parts (e : Engine) :
    (reset e).1.state = GameState.idle ∧
    (reset e).1.clickCount = 0 ∧
    (reset e).1.timeLeft = DURATION_fx ∧
    (reset e).1.timerInterval = none ∧
    (reset e).1.countdownInterval = none ∧
    (reset e).1.gameStartTime = none := by
  unfold reset
  cases hti : e.timerInterval <;> cases hci : e.countdownInterval <;>
    simp [clearTimerInterval, clearCountdownInterval, hti, hci]

theorem reset_active (e : Engine) (h : Inv e) : (reset e).1.active = [] := by
  obtain ⟨_, hact⟩ := h
  unfold reset
  rcases hact with h1 | ⟨i, k, ha, hc, ht, _⟩ | ⟨i, ha, ht, _⟩
  · cases hti : e.timerInterval <;> cases hci : e.countdownInterval <;>
      simp [clearTimerInterval, clearCountdownInterval, hti, hci, h1, removeSched_nil]
  · simp [clearTimerInterval, clearCountdownInterval, ht, hc, ha, removeSched_self]
  · cases hci : e.countdownInterval <;>
      simp [clearTimerInterval, clearCountdownInterval, ht, hci, ha,
        removeSched_self, removeSched_nil]

theorem inv_reset (e : Engine) (h : Inv e) : Inv (reset e).1 := by
  obtain ⟨hs, _, _, ht, hc, _⟩ := reset_parts e
  exact ⟨fun _ => ⟨ht, hc⟩, Or.inl (reset_active e h)⟩

theorem destroy_fields (e : Engine) :
    (destroy e).1.state = e.state ∧
    (destroy e).1.timerInterval = e.timerInterval ∧
    (destroy e).1.countdownInterval = e.countdownInterval ∧
    (destroy e).1.timeLeft = e.timeLeft := by
  unfold destroy
  cases hti : e.timerInterval <;> cases hci : e.countdownInterval <;>
    simp [cancelTimerSched, cancelCountdownSched, hti, hci]

theorem destroy_active (e : Engine) (h : Inv e) : (destroy e).1.active = [] := by
  obtain ⟨_, hact⟩ := h
  unfold destroy
  rcases hact with h1 | ⟨i, k, ha, hc, ht, _⟩ | ⟨i, ha, ht, _⟩
  · cases hti : e.timerInterval <;> cases hci : e.countdownInterval <;>
      simp [cancelTimerSched, cancelCountdownSched, hti, hci, h1, removeSched_nil]
  · simp [cancelTimerSched, cancelCountdownSched, ht, hc, ha, removeSched_self]
  · cases hci : e.countdownInterval <;>
      simp [cancelTimerSched, cancelCountdownSched, ht, hci, ha,
        removeSched_self, removeSched_nil]

theorem inv_destroy (e : Engine) (h : Inv e) : Inv (destroy e).1 := by
  obtain ⟨hs, ht, hc, _⟩ := destroy_fields e
  refine ⟨fun hx => ?_, Or.inl (destroy_active e h)⟩
  rw [hs] at hx
  obtain ⟨h1, h2⟩ := h.1 hx
  rw [ht, hc]
  exact ⟨h1, h2⟩

theorem inv_fireCountdown (e : Engine) (i : Nat) (k : Int) (now : Int)
    (ha : e.active = [⟨i, SchedKind.countdown k⟩])
    (hc : e.countdownInterval = some i) (ht : e.timerInterval = none)
    (hs : e.state = GameState.countdown) :
    Inv (fireCountdown e i k now).1 := by
  simp only [fireCountdown]
  split
  case isTrue hk =>
    refine ⟨fun hx => absurd ((show _ = e.state from rfl).trans hs |>.symm.trans hx) (by decide),
      Or.inr (Or.inl ⟨i, k - 1, ?_, ?_, ?_, ?_⟩)⟩
    · rw [show ({ e with active := setCount e.active i (k - 1) } : Engine).active
        = setCount e.active i (k - 1) from rfl, ha, setCount_self]
    · exact hc
    · exact ht
    · exact hs
  case isFalse hk =>
    have hmid : clearCountdownInterval { e with active := setCount e.active i (k - 1) } =
        { e with active := [], countdownInterval := none } := by
      simp [clearCountdownInterval, hc, ha, setCount_self, removeSched_self]
    rw [hmid]
    obtain ⟨g1, g2, g3, g4, _, _⟩ :=
      startGameplay_parts { e with active := ([] : List Sched), countdownInterval := none } now
    refine ⟨fun hx => absurd (g1.symm.trans hx) (by decide), Or.inr (Or.inr ⟨e.nextId, ?_, ?_, ?_⟩)⟩
    · rw [g2]
      rfl
    · exact g3
    · exact g1

theorem inv_fireTimer (e : Engine) (i : Nat) (now : Int)
    (ha : e.active = [⟨i, SchedKind.timer⟩])
    (ht : e.timerInterval = some i) (hs : e.state = GameState.playing) :
    Inv (fireTimer e now).1 := by
  simp only [fireTimer]
  split
  case isTrue hle =>
    obtain ⟨g1, _, _, _, _, _⟩ :=
      endGame_playing_parts { e with timeLeft := (0 : Int) } now hs
    obtain ⟨g7, _⟩ := endGame_playing_sched { e with timeLeft := (0 : Int) } now hs
    refine ⟨fun hx => absurd (g1.symm.trans hx) (by decide), Or.inl ?_⟩
    rw [g7]
    simp [clearTimerInterval, ht, ha, removeSched_self]
  case isFalse hgt =>
    exact ⟨fun hx => absurd (hs.symm.trans hx) (by decide),
      Or.inr (Or.inr ⟨i, ha, ht, hs⟩)⟩

theorem inv_tick (w : World) (i : Nat) (h : Inv w.eng) :
    Inv (stepOp w (Op.tick i)).1.eng := by
  obtain ⟨hidle, hact⟩ := h
  rcases hact with ha | ⟨i0, k, ha, hc, ht, hs⟩ | ⟨i0, ha, ht, hs⟩
  · simp only [stepOp, ha, findSched_nil]
    exact ⟨hidle, Or.inl ha⟩
  · by_cases hid : i0 = i
    · subst hid
      simp only [stepOp, ha, findSched_self, engStep]
      exact inv_fireCountdown w.eng i0 k w.now ha hc ht hs
    · simp only [stepOp, ha, findSched_other i0 i _ hid]
      exact ⟨hidle, Or.inr (Or.inl ⟨i0, k, ha, hc, ht, hs⟩)⟩
  · by_cases hid : i0 = i
    · subst hid
      simp only [stepOp, ha, findSched_self, engStep]
      exact inv_fireTimer w.eng i0 w.now ha ht hs
    · simp only [stepOp, ha, findSched_other i0 i _ hid]
      exact ⟨hidle, Or.inr (Or.inr ⟨i0, ha, ht, hs⟩)⟩

theorem inv_step (w : World) (op : Op) (hop : op ≠ Op.startGameplay)
    (h : Inv w.eng) : Inv (stepOp w op).1.eng := by
  cases op with
  | startCountdown => exact inv_startCountdown w.eng h
  | startGameplay => exact absurd rfl hop
  | registerClick => exact inv_registerClick w.eng h
  | endGame => exact inv_endGame w.eng w.now h
  | reset => exact inv_reset w.eng h
  | destroy => exact inv_destroy w.eng h
  | advance dt => exact h
  | tick i => exact inv_tick w i h

theorem inv_run (ops : List Op) :
    ∀ (w : World), Op.startGameplay ∉ ops → Inv w.eng →
      Inv ((run w ops).1).eng := by
  induction ops with
  | nil =>
    intro w _ h
    exact h
  | cons op rest ih =>
    intro w hno h
    have h1 : op ≠ Op.startGameplay := by
      intro hx
      exact hno (hx ▸ List.mem_cons_self op rest)
    have h2 : Op.startGameplay ∉ rest := fun hx => hno (List.mem_cons_of_mem op hx)
    exact ih (stepOp w op).1 h2 (inv_step w op h1 h)


/-- Claim C3 (amended): under every sequence of operations in which
startGameplay is only invoked internally by the completing countdown (that
is, never called directly), at most one of the countdown schedule and the
decrement schedule is live in every reachable configuration, and reset and
destroy leave no live schedule at all.  Direct startGameplay calls break the
guarantee (see the counterexample): startGameplay starts a schedule without
cancelling the prior one. -/
theorem C3_thm (ops : List Op) (hno : Op.startGameplay ∉ ops) :
    (run init0 ops).1.eng.active.length ≤ 1 ∧
    (reset (run init0 ops).1.eng).1.active = [] ∧
    (destroy (run init0 ops).1.eng).1.active = [] := by
  have hinv := inv_run ops init0 hno inv_init
  refine ⟨?_, reset_active _ hinv, destroy_active _ hinv⟩
  rcases hinv.2 with h1 | ⟨i, k, ha, _, _, _⟩ | ⟨i, ha, _, _⟩
  · simp [h1]
  · simp [ha]
  · simp [ha]

/-- Witness for C3 on the sequence startCountdown, one countdown tick. -/
theorem C3_witness :
    (run init0 [Op.startCountdown, Op.tick 0]).1.eng.active.length ≤ 1 ∧
    (reset (run init0 [Op.startCountdown, Op.tick 0]).1.eng).1.active = [] ∧
    (destroy (run init0 [Op.startCountdown, Op.tick 0]).1.eng).1.active = [] :=
  C3_thm [Op.startCountdown, Op.tick 0] (by decide)

/-- Counterexample to claim C3 as stated: startGameplay is a public method of
the engine, and calling it during the countdown leaves both the countdown
schedule and a fresh decrement schedule live at once - the transition into
PLAYING cancelled nothing. -/
theorem C3_counterexample :
    (run init0 [Op.startCountdown, Op.startGameplay]).1.eng.active =
      [⟨0, SchedKind.countdown 3⟩, ⟨1, SchedKind.timer⟩] ∧
    ¬ (run init0 [Op.startCountdown, Op.startGameplay]).1.eng.active.length ≤ 1 :=
  ⟨by decide, by decide⟩

/-- Claim C7: from every configuration reachable without direct startGameplay
calls - in particular from each of the four states - reset returns the
engine to IDLE with zero clicks, the full configured duration, and no live
schedule, so that advancing time and firing any interval id afterwards
changes nothing and emits nothing. -/
theorem C7_thm (ops : List Op) (hno : Op.startGameplay ∉ ops) :
    (afterReset ops).eng.state = GameState.idle ∧
    (afterReset ops).eng.clickCount = 0 ∧
    (afterReset ops).eng.timeLeft = DURATION_fx ∧
    (afterReset ops).eng.active = [] ∧
    (∀ (dt : Int) (i : Nat),
      run (afterReset ops) [Op.advance dt, Op.tick i] =
        (⟨(afterReset ops).eng, (afterReset ops).now + dt⟩, [])) := by
  have hinv := inv_run ops init0 hno inv_init
  obtain ⟨hs, hcc, htl, _, _, _⟩ := reset_parts (run init0 ops).1.eng
  have hact : (afterReset ops).eng.active = [] := reset_active _ hinv
  refine ⟨hs, hcc, htl, hact, ?_⟩
  intro dt i
  simp only [run, stepOp]
  rw [show findSched (afterReset ops).eng.active i = none from by rw [hact]; rfl]
  rfl

/-- Witness for C7 after the sequence startCountdown, one countdown tick. -/
theorem C7_witness :
    (afterReset [Op.startCountdown, Op.tick 0]).eng.state = GameState.idle ∧
    (afterReset [Op.startCountdown, Op.tick 0]).eng.clickCount = 0 ∧
    (afterReset [Op.startCountdown, Op.tick 0]).eng.timeLeft = DURATION_fx ∧
    (afterReset [Op.startCountdown, Op.tick 0]).eng.active = [] ∧
    (∀ (dt : Int) (i : Nat),
      run (afterReset [Op.startCountdown, Op.tick 0]) [Op.advance dt, Op.tick i] =
        (⟨(afterReset [Op.startCountdown, Op.tick 0]).eng,
          (afterReset [Op.startCountdown, Op.tick 0]).now + dt⟩, [])) :=
  C7_thm [Op.startCountdown, Op.tick 0] (by decide)

/-! ## Non-negativity of timeLeft -/

theorem endGame_timeLeft_nonneg (e : Engine) (now : Int)
    (h : 0 ≤ e.timeLeft) : 0 ≤ (endGame e now).1.timeLeft := by
  by_cases hp : e.state = GameState.playing
  · obtain ⟨_, _, h0, _, _, _⟩ := endGame_playing_parts e now hp
    rw [h0]
  · rw [endGame_not_playing e now hp]
    exact h

theorem DURATION_fx_nonneg : (0 : Int) ≤ DURATION_fx := by decide

theorem fireCountdown_timeLeft (e : Engine) (i : Nat) (c : Int) (now : Int) :
    (fireCountdown e i c now).1.timeLeft = e.timeLeft ∨
    (fireCountdown e i c now).1.timeLeft = DURATION_fx := by
  simp only [fireCountdown]
  split
  · left
    rfl
  · right
    exact (startGameplay_parts _ now).2.2.2.2.1

theorem fireTimer_timeLeft_nonneg (e : Engine) (now : Int) :
    0 ≤ (fireTimer e now).1.timeLeft := by
  simp only [fireTimer]
  split
  · exact endGame_timeLeft_nonneg _ now (le_refl 0)
  · next h2 => exact le_of_not_le h2

theorem timeLeft_nonneg_step (w : World) (op : Op)
    (h : 0 ≤ w.eng.timeLeft) : 0 ≤ (stepOp w op).1.eng.timeLeft := by
  cases op with
  | startCountdown =>
    simp only [stepOp, engStep, startCountdown]
    split
    · exact h
    · exact h
  | startGameplay => exact DURATION_fx_nonneg
  | registerClick =>
    simp only [stepOp, engStep, registerClick]
    split
    · exact h
    · exact h
  | endGame => exact endGame_timeLeft_nonneg w.eng w.now h
  | reset =>
    have := (reset_parts w.eng).2.2.1
    simp only [stepOp, engStep]
    rw [this]
    exact DURATION_fx_nonneg
  | destroy =>
    have := (destroy_fields w.eng).2.2.2
    simp only [stepOp, engStep]
    rw [this]
    exact h
  | advance dt => exact h
  | tick i =>
    simp only [stepOp]
    cases hfs : findSched w.eng.active i with
    | none => exact h
    | some s =>
      obtain ⟨sid, skind⟩ := s
      cases skind with
      | countdown c =>
        show 0 ≤ (fireCountdown w.eng i c w.now).1.timeLeft
        rcases fireCountdown_timeLeft w.eng i c w.now with hq | hq
        · rw [hq]
          exact h
        · rw [hq]
          exact DURATION_fx_nonneg
      | timer =>
        show 0 ≤ (fireTimer w.eng w.now).1.timeLeft
        exact fireTimer_timeLeft_nonneg w.eng w.now

theorem timeLeft_nonneg_run (ops : List Op) :
    ∀ (w : World), 0 ≤ w.eng.timeLeft → 0 ≤ (run w ops).1.eng.timeLeft := by
  induction ops with
  | nil =>
    intro w h
    exact h
  | cons op rest ih =>
    intro w h
    exact ih (stepOp w op).1 (timeLeft_nonneg_step w op h)

/-- Claim C5: timeLeft is non-negative in every reachable configuration;
the firing of the decrement schedule whose binary64 subtraction lands at or
below 0 clamps timeLeft to exactly 0, moves the engine from PLAYING to
FINISHED, and cancels the decrement schedule; and a firing whose subtraction
stays positive clamps nothing and changes only timeLeft, so the clamp
happens exactly once, at the transition. -/
theorem C5_thm :
    (∀ (ops : List Op), 0 ≤ (run init0 ops).1.eng.timeLeft) ∧
    (∀ (e : Engine) (now : Int), e.state = GameState.playing →
      jsSubFx e.timeLeft tickDecrement_fx ≤ 0 →
      (fireTimer e now).1.state = GameState.finished ∧
      (fireTimer e now).1.timeLeft = 0 ∧
      (fireTimer e now).1.timerInterval = none ∧
      (∀ (i : Nat), e.timerInterval = some i →
        (fireTimer e now).1.active = removeSched e.active i)) ∧
    (∀ (e : Engine) (now : Int), 0 < jsSubFx e.timeLeft tickDecrement_fx →
      (fireTimer e now).1 =
        { e with timeLeft := jsSubFx e.timeLeft tickDecrement_fx }) := by
  refine ⟨?_, ?_, ?_⟩
  · intro ops
    exact timeLeft_nonneg_run ops init0 (by decide)
  · intro e now hp hle
    simp only [fireTimer]
    rw [if_pos (show jsSubFx e.timeLeft tickDecrement_fx ≤ 0 from hle)]
    obtain ⟨g1, _, g3, g4, _, _⟩ :=
      endGame_playing_parts { e with timeLeft := (0 : Int) } now hp
    obtain ⟨g7, _⟩ := endGame_playing_sched { e with timeLeft := (0 : Int) } now hp
    refine ⟨g1, g3, g4, ?_⟩
    intro i hti
    rw [g7]
    simp [clearTimerInterval, hti]
  · intro e now hgt
    simp only [fireTimer]
    rw [if_neg (show ¬jsSubFx e.timeLeft tickDecrement_fx ≤ 0 from by omega)]

/-- Witness for C5: the empty run, the finishing tick on e_lowTime, and a
non-final tick on a freshly started round. -/
theorem C5_witness :
    0 ≤ (run init0 []).1.eng.timeLeft ∧
    ((fireTimer e_lowTime 13100).1.state = GameState.finished ∧
      (fireTimer e_lowTime 13100).1.timeLeft = 0 ∧
      (fireTimer e_lowTime 13100).1.timerInterval = none ∧
      (fireTimer e_lowTime 13100).1.active = removeSched e_lowTime.active 0) ∧
    (fireTimer (startGameplay initEngine 0).1 100).1 =
      { (startGameplay initEngine 0).1 with
        timeLeft := jsSubFx ((startGameplay initEngine 0).1).timeLeft tickDecrement_fx } := by
  obtain ⟨a1, a2, a3, a4⟩ := C5_thm.2.1 e_lowTime 13100 (by decide) (by decide)
  exact ⟨C5_thm.1 [], ⟨a1, a2, a3, a4 0 (by decide)⟩,
    C5_thm.2.2 (startGameplay initEngine 0).1 100 (by decide)⟩

end Clicker
